import Mathlib

/-!
Shallow embedding of the interactive bounding-box editor of
`OpenLabelFrontend/src/annotators/ObjectDetectionAnnotator.tsx`.

Numbers are modelled as rationals (`ℚ`): every arithmetic operation the
component performs (addition, subtraction, multiplication, division,
`Math.min`, `Math.max`, `Math.abs`) is exact on the inputs considered here,
so the rational model evaluates to the same values the JavaScript engine
computes (up to floating-point rounding, which the spec's tolerances absorb).
`Math.hypot d e < r` (with `r > 0`) is embedded as the equivalent squared
comparison `d^2 + e^2 < r^2`, avoiding square roots.

React state (`mode`, `dragOffset`, `resizingCorner`, `selectedId`) and refs
(`startPoint`, `imageDrawData`) are collected in an explicit `EditorState`.
The three pointer handlers become functions on that state; `handleMouseMove`
and `handleMouseUp` return `Except String EditorState` because they
destructure `imageDrawData.current` without a null guard, which in
JavaScript throws a `TypeError` when the ref is still `null` — the `.error`
case models that thrown exception (and, as in JavaScript, the trailing state
resets of `handleMouseUp` do not run when the destructuring throws).
`uuidv4()` and the `activeLabel` prop are passed in explicitly.
-/

namespace OpenLabel

/-- Interface `BoundingBox` (ObjectDetectionAnnotator.tsx lines 5-12):
normalized coordinates, stable id, label. -/
structure BoundingBox where
  id : String
  x : ℚ
  y : ℚ
  width : ℚ
  height : ℚ
  label : String
deriving DecidableEq, Repr

/-- The object stored in `imageDrawData.current` (lines 70-76): offset of the
drawn image inside the canvas, its drawn size, and the scale factor. -/
structure ImageFrame where
  x : ℚ
  y : ℚ
  width : ℚ
  height : ℚ
  scale : ℚ
deriving DecidableEq, Repr

/-- Interaction mode, the React state `mode` (line 41):
`"none" | "drawing" | "moving" | "resizing"`. -/
inductive Mode where
  | none
  | drawing
  | moving
  | resizing
deriving DecidableEq, Repr

/-- The component's mutable state: React state hooks plus the two refs.
`frame` is `imageDrawData.current`, `none` while no render has stored a
frame (image not yet loaded). -/
structure EditorState where
  mode : Mode
  startPoint : Option (ℚ × ℚ)
  dragOffset : Option (ℚ × ℚ)
  resizingCorner : Option Nat
  selectedId : Option String
  activeLabel : String
  annotations : List BoundingBox
  frame : Option ImageFrame
deriving DecidableEq, Repr

/-- `const HANDLE_SIZE = 8` (line 25); also the radius of the rendered
handle circles (`ctx.arc(x, y, HANDLE_SIZE, ...)`, line 108). -/
def HANDLE_SIZE : ℚ := 8

/-- Handle hit-test radius `HANDLE_SIZE * 1.5` (line 171). -/
def handleHitRadius : ℚ := HANDLE_SIZE * (3 / 2)

/-- Frame computation of `drawCanvas` (lines 64-68): aspect-fit scale,
drawn size, centered offsets. -/
def computeFrame (canvasW canvasH imgW imgH : ℚ) : ImageFrame :=
  let scale := min (canvasW / imgW) (canvasH / imgH)
  let dw := imgW * scale
  let dh := imgH * scale
  { x := (canvasW - dw) / 2
    y := (canvasH - dh) / 2
    width := dw
    height := dh
    scale := scale }

/-- Normalized box to canvas pixel rectangle `(absX, absY, absW, absH)`,
the conversion inlined at lines 80-83, 135-138, 157-160 and 243-246. -/
def toCanvas (f : ImageFrame) (b : BoundingBox) : ℚ × ℚ × ℚ × ℚ :=
  (f.x + b.x * f.width, f.y + b.y * f.height, b.width * f.width, b.height * f.height)

/-- Canvas pixel rectangle back to a normalized box, the conversion inlined
at lines 278-281 (and lines 311-314 for the clamped draw commit). -/
def toNormalized (f : ImageFrame) (r : ℚ × ℚ × ℚ × ℚ) (id label : String) : BoundingBox :=
  { id := id
    x := (r.1 - f.x) / f.width
    y := (r.2.1 - f.y) / f.height
    width := r.2.2.1 / f.width
    height := r.2.2.2 / f.height
    label := label }

/-- Point-in-rectangle test of `findClickedBox` (line 140):
`x >= absX && x <= absX + absW && y >= absY && y <= absY + absH`. -/
def containsPoint (f : ImageFrame) (box : BoundingBox) (px py : ℚ) : Bool :=
  let absX := f.x + box.x * f.width
  let absY := f.y + box.y * f.height
  let absW := box.width * f.width
  let absH := box.height * f.height
  decide (absX ≤ px ∧ px ≤ absX + absW ∧ absY ≤ py ∧ py ≤ absY + absH)

/-- Body hit test `findClickedBox` (lines 125-145): `null` guard on
`imageDrawData.current`, then a forward `for (const box of annotations)`
loop returning the first box containing the point. -/
def findClickedBox (frame : Option ImageFrame) (boxes : List BoundingBox)
    (px py : ℚ) : Option BoundingBox :=
  match frame with
  | Option.none => Option.none
  | Option.some f => boxes.find? (fun box => containsPoint f box px py)

/-- Corner `i` of a box in canvas pixels, the `corners` array of
`findClickedHandle` (lines 162-167): 0 top-left, 1 top-right,
2 bottom-left, 3 bottom-right. -/
def cornerPoint (f : ImageFrame) (box : BoundingBox) (i : Nat) : ℚ × ℚ :=
  let absX := f.x + box.x * f.width
  let absY := f.y + box.y * f.height
  let absW := box.width * f.width
  let absH := box.height * f.height
  if i = 0 then (absX, absY)
  else if i = 1 then (absX + absW, absY)
  else if i = 2 then (absX, absY + absH)
  else (absX + absW, absY + absH)

/-- `Math.hypot(x - corner.x, y - corner.y) < HANDLE_SIZE * 1.5` (line 171),
embedded as the equivalent squared-distance comparison. -/
def hitsHandle (px py : ℚ) (c : ℚ × ℚ) : Bool :=
  decide ((px - c.1) ^ 2 + (py - c.2) ^ 2 < handleHitRadius ^ 2)

/-- Inner loop of `findClickedHandle` (lines 169-174): the four corners of
one box tested in index order, first hit wins. -/
def findHandleInBox (f : ImageFrame) (box : BoundingBox) (px py : ℚ) : Option Nat :=
  if hitsHandle px py (cornerPoint f box 0) then Option.some 0
  else if hitsHandle px py (cornerPoint f box 1) then Option.some 1
  else if hitsHandle px py (cornerPoint f box 2) then Option.some 2
  else if hitsHandle px py (cornerPoint f box 3) then Option.some 3
  else Option.none

/-- Outer loop of `findClickedHandle` (lines 156-175): boxes scanned in
insertion order, first box with a hit corner wins. -/
def findHandleAux (f : ImageFrame) (px py : ℚ) :
    List BoundingBox → Option (BoundingBox × Nat)
  | [] => Option.none
  | box :: rest =>
    match findHandleInBox f box px py with
    | Option.some i => Option.some (box, i)
    | Option.none => findHandleAux f px py rest

/-- Handle hit test `findClickedHandle` (lines 147-177), including the
`null` guard on `imageDrawData.current`. -/
def findClickedHandle (frame : Option ImageFrame) (boxes : List BoundingBox)
    (px py : ℚ) : Option (BoundingBox × Nat) :=
  match frame with
  | Option.none => Option.none
  | Option.some f => findHandleAux f px py boxes

/-- Thrown `TypeError` message used by the model when a handler
destructures `imageDrawData.current` while it is still `null`. -/
def nullFrameErr : String := "TypeError: imageDrawData.current is null"

/-- JavaScript truthiness of `selectedId : string | null`: truthy iff
non-null and non-empty. -/
def truthyId : Option String → Bool
  | Option.none => false
  | Option.some s => decide (s ≠ "")

/-- `handleMouseDown` (lines 179-204): handle hit first (enter resizing),
then body hit (enter moving, remember drag anchor), else start drawing and
deselect. Never touches `imageDrawData.current` directly, so it is total. -/
def handleMouseDown (s : EditorState) (px py : ℚ) : EditorState :=
  match findClickedHandle s.frame s.annotations px py with
  | Option.some (box, corner) =>
    { s with selectedId := Option.some box.id
             resizingCorner := Option.some corner
             mode := Mode.resizing }
  | Option.none =>
    match findClickedBox s.frame s.annotations px py with
    | Option.some box =>
      { s with selectedId := Option.some box.id
               dragOffset := Option.some (px, py)
               mode := Mode.moving }
    | Option.none =>
      { s with startPoint := Option.some (px, py)
               mode := Mode.drawing
               selectedId := Option.none }

/-- Per-box update of the moving branch of `handleMouseMove`
(lines 220-227): boxes with another id pass through unchanged, the selected
box gets `x := (offsetX + box.x*imgW + dx - offsetX) / imgW` and the
analogous `y`. -/
def moveBox (f : ImageFrame) (sid : String) (dx dy : ℚ) (box : BoundingBox) :
    BoundingBox :=
  if box.id ≠ sid then box
  else
    { box with
      x := (f.x + box.x * f.width + dx - f.x) / f.width
      y := (f.y + box.y * f.height + dy - f.y) / f.height }

/-- Per-box update of the resizing branch of `handleMouseMove`
(lines 240-283): start from the current corners `(x0, y0)`-`(x1, y1)`,
overwrite the coordinates owned by the dragged corner with the pointer
position (the `if/else if` chain on `resizingCorner`, lines 253-269), then
rebuild the rectangle with `min`/`abs` (lines 271-274) and re-normalize. -/
def resizeBox (f : ImageFrame) (sid : String) (corner : Nat) (px py : ℚ)
    (box : BoundingBox) : BoundingBox :=
  if box.id ≠ sid then box
  else
    let absX := f.x + box.x * f.width
    let absY := f.y + box.y * f.height
    let absW := box.width * f.width
    let absH := box.height * f.height
    let x0 := if corner = 0 ∨ corner = 2 then px else absX
    let y0 := if corner = 0 ∨ corner = 1 then py else absY
    let x1 := if corner = 1 ∨ corner = 3 then px else absX + absW
    let y1 := if corner = 2 ∨ corner = 3 then py else absY + absH
    let newX := min x0 x1
    let newY := min y0 y1
    let newW := |x1 - x0|
    let newH := |y1 - y0|
    { box with
      x := (newX - f.x) / f.width
      y := (newY - f.y) / f.height
      width := newW / f.width
      height := newH / f.height }

/-- `handleMouseMove` (lines 206-286). The moving branch fires when
`mode === "moving" && selectedId && dragOffset`, the resizing branch when
`mode === "resizing" && selectedId && resizingCorner !== null`; both then
destructure `imageDrawData.current`, throwing when it is `null`. The moving
branch also re-anchors `dragOffset` to the current pointer position. -/
def handleMouseMove (s : EditorState) (px py : ℚ) : Except String EditorState :=
  match s.mode, s.selectedId, s.dragOffset, s.resizingCorner with
  | Mode.moving, Option.some sid, Option.some d, _ =>
    if sid = "" then Except.ok s
    else
      match s.frame with
      | Option.none => Except.error nullFrameErr
      | Option.some f =>
        Except.ok
          { s with
            annotations := s.annotations.map (moveBox f sid (px - d.1) (py - d.2))
            dragOffset := Option.some (px, py) }
  | Mode.resizing, Option.some sid, _, Option.some corner =>
    if sid = "" then Except.ok s
    else
      match s.frame with
      | Option.none => Except.error nullFrameErr
      | Option.some f =>
        Except.ok
          { s with annotations := s.annotations.map (resizeBox f sid corner px py) }
  | _, _, _, _ => Except.ok s

/-- The box committed by the drawing branch of `handleMouseUp`
(lines 298-316): both gesture corners clamped into `[0, imgW] × [0, imgH]`
relative to the image (`Math.min(Math.max(v - offset, 0), extent)`), then
normalized with `min`/`abs`. -/
def commitBox (f : ImageFrame) (sp : ℚ × ℚ) (endX endY : ℚ)
    (newId label : String) : BoundingBox :=
  let relStartX := min (max (sp.1 - f.x) 0) f.width
  let relStartY := min (max (sp.2 - f.y) 0) f.height
  let relEndX := min (max (endX - f.x) 0) f.width
  let relEndY := min (max (endY - f.y) 0) f.height
  { id := newId
    x := min relStartX relEndX / f.width
    y := min relStartY relEndY / f.height
    width := |relEndX - relStartX| / f.width
    height := |relEndY - relStartY| / f.height
    label := label }

/-- The unconditional state resets at the end of `handleMouseUp`
(lines 321-324). -/
def resetUp (s : EditorState) : EditorState :=
  { s with mode := Mode.none
           startPoint := Option.none
           dragOffset := Option.none
           resizingCorner := Option.none }

/-- `handleMouseUp` (lines 288-325): when `mode === "drawing"` with a
recorded start point it destructures `imageDrawData.current` (throwing when
`null`), always appends the committed box — there is no minimum-size check —
and then resets the transient state. When the destructuring throws, the
resets do not run. `newId` stands for the `uuidv4()` call. -/
def handleMouseUp (s : EditorState) (px py : ℚ) (newId : String) :
    Except String EditorState :=
  match s.mode, s.startPoint with
  | Mode.drawing, Option.some sp =>
    match s.frame with
    | Option.none => Except.error nullFrameErr
    | Option.some f =>
      Except.ok (resetUp
        { s with
          annotations :=
            s.annotations ++ [commitBox f sp px py newId s.activeLabel] })
  | _, _ => Except.ok (resetUp s)

/-- Painting operations issued by `drawCanvas`, in issue order. The label
chip (lines 89-93, background plus text) is collapsed into one `labelChip`
command because its background width comes from `ctx.measureText`, an
environment metric outside the program. The `handle` command records the
circle centre and radius passed to `ctx.arc` in `drawHandle`. -/
inductive DrawCmd where
  | clear
  | image (x y w h : ℚ)
  | strokeRect (x y w h : ℚ) (selected : Bool)
  | labelChip (label : String) (x y : ℚ)
  | handle (x y r : ℚ)
deriving DecidableEq, Repr

/-- `drawHandle` (lines 103-111): a circle of radius `HANDLE_SIZE` at the
given centre. -/
def drawHandle (x y : ℚ) : DrawCmd :=
  DrawCmd.handle x y HANDLE_SIZE

/-- The four handle-drawing calls issued for one box (lines 96-99). -/
def boxHandles (f : ImageFrame) (box : BoundingBox) : List DrawCmd :=
  let absX := f.x + box.x * f.width
  let absY := f.y + box.y * f.height
  let absW := box.width * f.width
  let absH := box.height * f.height
  [drawHandle absX absY,
   drawHandle (absX + absW) absY,
   drawHandle absX (absY + absH),
   drawHandle (absX + absW) (absY + absH)]

/-- Commands issued for one box in the render loop (lines 79-100): outline
(selected boxes get the distinct stroke), label chip, then the four corner
handles — the handles are drawn for every box, not only the selected one. -/
def boxCmds (f : ImageFrame) (selectedId : Option String) (box : BoundingBox) :
    List DrawCmd :=
  let absX := f.x + box.x * f.width
  let absY := f.y + box.y * f.height
  let absW := box.width * f.width
  let absH := box.height * f.height
  [DrawCmd.strokeRect absX absY absW absH (Option.some box.id == selectedId),
   DrawCmd.labelChip box.label absX (absY - 20)] ++ boxHandles f box

/-- Command sequence issued by the body of `drawCanvas` once a frame is
available (lines 62-100): clear, background image, then each box's commands
in insertion order. -/
def renderCmds (f : ImageFrame) (boxes : List BoundingBox)
    (selectedId : Option String) : List DrawCmd :=
  DrawCmd.clear :: DrawCmd.image f.x f.y f.width f.height ::
    (boxes.map (boxCmds f selectedId)).flatten

/-- `drawCanvas` (lines 53-101) as the list of painting commands it issues:
nothing when no image is loaded (early return, line 55), otherwise the
frame is computed and the full command sequence issued. `image` is the
intrinsic size `(imgW, imgH)` of the loaded image. -/
def drawCanvas (image : Option (ℚ × ℚ)) (width height : ℚ)
    (boxes : List BoundingBox) (selectedId : Option String) : List DrawCmd :=
  match image with
  | Option.none => []
  | Option.some (imgW, imgH) =>
    renderCmds (computeFrame width height imgW imgH) boxes selectedId

/-! Concrete fixtures used by the example-level theorems. -/

/-- Frame with the image drawn 1:1 at the canvas origin, 100×100 pixels
(canvas 100×100, image 100×100). -/
def frame100 : ImageFrame := ⟨0, 0, 100, 100, 1⟩

/-- Box covering the whole image, inserted first. -/
def boxA : BoundingBox := ⟨"A", 0, 0, 1, 1, "cat"⟩

/-- Box covering the centre of the image, inserted second and overlapping
`boxA`. -/
def boxB : BoundingBox := ⟨"B", 1/4, 1/4, 1/2, 1/2, "dog"⟩

/-- Editor state for the end-to-end draw scenario: canvas 800×600, image
400×200, draw gesture already started at pixel (100, 150). -/
def drawState800 : EditorState :=
  { mode := Mode.drawing
    startPoint := Option.some (100, 150)
    dragOffset := Option.none
    resizingCorner := Option.none
    selectedId := Option.none
    activeLabel := "cat"
    annotations := []
    frame := Option.some (computeFrame 800 600 400 200) }

/-- C5: `computeFrame` is the aspect-fit letterboxing function; on canvas
800×600 with image 400×200 it yields scale 2, drawn size 800×400, offsets
(0, 100), and a draw gesture from pixel (100, 150) to (300, 250) then
commits the normalized box x=1/8, y=1/8, width=1/4, height=1/4. -/
theorem C5_computeFrame_scenario :
    (∀ cw ch iw ih : ℚ,
      computeFrame cw ch iw ih =
        { x := (cw - iw * min (cw / iw) (ch / ih)) / 2
          y := (ch - ih * min (cw / iw) (ch / ih)) / 2
          width := iw * min (cw / iw) (ch / ih)
          height := ih * min (cw / iw) (ch / ih)
          scale := min (cw / iw) (ch / ih) }) ∧
    computeFrame 800 600 400 200 = ⟨0, 100, 800, 400, 2⟩ ∧
    handleMouseUp drawState800 300 250 "n1" =
      Except.ok
        { mode := Mode.none
          startPoint := Option.none
          dragOffset := Option.none
          resizingCorner := Option.none
          selectedId := Option.none
          activeLabel := "cat"
          annotations := [⟨"n1", 1/8, 1/8, 1/4, 1/4, "cat"⟩]
          frame := Option.some (computeFrame 800 600 400 200) } := by
  refine ⟨fun cw ch iw ih => rfl, ?_, ?_⟩
  · simp only [computeFrame]
    norm_num [min_def]
  · simp only [drawState800, handleMouseUp, commitBox, resetUp, computeFrame]
    norm_num [min_def, max_def, abs_of_nonneg]

/-- Idle editor state showing `boxA` under `boxB` in `frame100`. -/
def overlapState : EditorState :=
  { mode := Mode.none
    startPoint := Option.none
    dragOffset := Option.none
    resizingCorner := Option.none
    selectedId := Option.none
    activeLabel := "cat"
    annotations := [boxA, boxB]
    frame := Option.some frame100 }

/-- Helper: `find?` returns the head of the suffix when nothing before it
satisfies the predicate. -/
lemma find?_append_cons {α} (p : α → Bool) (xs : List α) (b : α) (ys : List α)
    (hxs : ∀ a ∈ xs, p a = false) (hb : p b = true) :
    (xs ++ b :: ys).find? p = Option.some b := by
  induction xs with
  | nil => simp [List.find?, hb]
  | cons a t ih =>
    have ha : p a = false := hxs a (List.mem_cons_self a t)
    simpa [List.find?, ha] using ih (fun c hc => hxs c (List.mem_cons_of_mem a hc))

/-- C2 counterexample: both `boxA` (inserted first) and `boxB` (inserted
second) contain pixel (50, 50), no handle is within hit radius, yet
pointer-down selects `boxA` — `findClickedBox` scans `annotations` in
forward insertion order and returns the first hit, so the earlier-inserted
box wins, contradicting the claim that the later-inserted box is selected. -/
theorem C2_counterexample :
    containsPoint frame100 boxA 50 50 = true ∧
    containsPoint frame100 boxB 50 50 = true ∧
    findClickedHandle (Option.some frame100) [boxA, boxB] 50 50 = Option.none ∧
    (handleMouseDown overlapState 50 50).selectedId = Option.some "A" ∧
    (handleMouseDown overlapState 50 50).selectedId ≠ Option.some "B" := by
  have h4 : (handleMouseDown overlapState 50 50).selectedId = Option.some "A" := by
    simp [handleMouseDown, overlapState, findClickedHandle, findHandleAux,
      findHandleInBox, hitsHandle, cornerPoint, handleHitRadius, HANDLE_SIZE,
      findClickedBox, containsPoint, frame100, boxA, boxB, List.find?]
    norm_num
  refine ⟨?_, ?_, ?_, h4, ?_⟩
  · simp [containsPoint, frame100, boxA]
    norm_num
  · simp [containsPoint, frame100, boxB]
    norm_num
  · simp [findClickedHandle, findHandleAux, findHandleInBox, hitsHandle,
      cornerPoint, handleHitRadius, HANDLE_SIZE, frame100, boxA, boxB]
    norm_num
  · rw [h4]
    simp

/-- C2 amended: body hit-testing scans the box list in forward insertion
order, so when no handle is hit, pointer-down on an overlap selects the
earliest-inserted box containing the point (the box list itself is left
unchanged by pointer-down). -/
theorem C2_forward_order (s : EditorState) (f : ImageFrame)
    (xs ys : List BoundingBox) (b : BoundingBox) (px py : ℚ)
    (hf : s.frame = Option.some f)
    (hann : s.annotations = xs ++ b :: ys)
    (hmiss : findClickedHandle s.frame s.annotations px py = Option.none)
    (hxs : ∀ a ∈ xs, containsPoint f a px py = false)
    (hb : containsPoint f b px py = true) :
    (handleMouseDown s px py).mode = Mode.moving ∧
    (handleMouseDown s px py).selectedId = Option.some b.id ∧
    (handleMouseDown s px py).annotations = s.annotations := by
  have hbox : findClickedBox s.frame s.annotations px py = Option.some b := by
    rw [hf, hann]
    simpa [findClickedBox] using find?_append_cons _ xs b ys hxs hb
  simp [handleMouseDown, hmiss, hbox]

/-- C2 amended, witness: in `overlapState`, pointer-down at (50, 50)
selects `boxA`, the earliest-inserted box containing the point. -/
theorem C2_forward_order_witness :
    (handleMouseDown overlapState 50 50).mode = Mode.moving ∧
    (handleMouseDown overlapState 50 50).selectedId = Option.some boxA.id ∧
    (handleMouseDown overlapState 50 50).annotations = overlapState.annotations :=
  C2_forward_order overlapState frame100 [] [boxB] boxA 50 50 rfl rfl
    (by simp [findClickedHandle, findHandleAux, findHandleInBox, hitsHandle,
          cornerPoint, handleHitRadius, HANDLE_SIZE, overlapState, frame100,
          boxA, boxB]
        norm_num)
    (by simp)
    (by simp [containsPoint, frame100, boxA]
        norm_num)

/-- Box sitting wholly inside the image, about to be dragged. -/
def boxM : BoundingBox := ⟨"A", 1/2, 1/2, 1/5, 1/5, "cat"⟩

/-- Editor state mid-drag: Moving mode, `boxM` selected, drag anchored at
the canvas origin. -/
def movingState : EditorState :=
  { mode := Mode.moving
    startPoint := Option.none
    dragOffset := Option.some (0, 0)
    resizingCorner := Option.none
    selectedId := Option.some "A"
    activeLabel := "cat"
    annotations := [boxM]
    frame := Option.some frame100 }

/-- C1 counterexample: a Moving-mode pointer-move applies no clamping — one
move of the drag pointer to (1000, 1000) puts the selected box at
x = y = 21/2, violating `x + width ≤ 1`, so the bounds invariant does not
survive move operations. -/
theorem C1_counterexample :
    handleMouseMove movingState 1000 1000 =
      Except.ok
        { movingState with
          annotations := [⟨"A", 21/2, 21/2, 1/5, 1/5, "cat"⟩]
          dragOffset := Option.some (1000, 1000) } ∧
    ¬ ((21 : ℚ)/2 + 1/5 ≤ 1) := by
  constructor
  · simp [handleMouseMove, movingState, moveBox, frame100, boxM]
    norm_num
  · norm_num

/-- Helper: one axis of the clamped draw commit — the normalized start is
nonnegative and start plus extent stays at most 1. -/
lemma clampedAxis (a b W : ℚ) (hW : 0 < W) :
    0 ≤ min (min (max a 0) W) (min (max b 0) W) / W ∧
    min (min (max a 0) W) (min (max b 0) W) / W +
      |min (max b 0) W - min (max a 0) W| / W ≤ 1 := by
  set r1 := min (max a 0) W with hr1
  set r2 := min (max b 0) W with hr2
  have h1 : 0 ≤ r1 := le_min (le_max_right a 0) hW.le
  have h2 : 0 ≤ r2 := le_min (le_max_right b 0) hW.le
  have h1W : r1 ≤ W := min_le_right _ _
  have h2W : r2 ≤ W := min_le_right _ _
  constructor
  · exact div_nonneg (le_min h1 h2) hW.le
  · rw [div_add_div_same, div_le_one hW]
    have hsum : min r1 r2 + |r2 - r1| = max r1 r2 := by
      rcases le_total r1 r2 with h | h
      · rw [min_eq_left h, abs_of_nonneg (sub_nonneg.2 h), max_eq_right h]
        ring
      · rw [min_eq_right h, abs_of_nonpos (sub_nonpos.2 h), max_eq_left h]
        ring
    rw [hsum]
    exact max_le h1W h2W

/-- C1 amended: only the draw commit clamps — every box committed by
pointer-up in Drawing mode satisfies `0 ≤ x`, `0 ≤ y`, `x + width ≤ 1`,
`y + height ≤ 1` (both gesture corners are clamped into the image before
normalization), while Moving/Resizing pointer-moves apply no clamping and
can take a box outside the image (see the counterexample). -/
theorem C1_draw_commit_bounds (f : ImageFrame) (sp : ℚ × ℚ) (endX endY : ℚ)
    (newId label : String) (hw : 0 < f.width) (hh : 0 < f.height) :
    0 ≤ (commitBox f sp endX endY newId label).x ∧
    0 ≤ (commitBox f sp endX endY newId label).y ∧
    (commitBox f sp endX endY newId label).x +
      (commitBox f sp endX endY newId label).width ≤ 1 ∧
    (commitBox f sp endX endY newId label).y +
      (commitBox f sp endX endY newId label).height ≤ 1 := by
  have hx := clampedAxis (sp.1 - f.x) (endX - f.x) f.width hw
  have hy := clampedAxis (sp.2 - f.y) (endY - f.y) f.height hh
  simp only [commitBox]
  exact ⟨hx.1, hy.1, hx.2, hy.2⟩

/-- C1 amended, witness: a draw gesture crossing all four image edges
(from (-50, 30) to (500, 120) over `frame100`) still commits a box inside
the unit square. -/
theorem C1_draw_commit_bounds_witness :
    0 ≤ (commitBox frame100 (-50, 30) 500 120 "w" "cat").x ∧
    0 ≤ (commitBox frame100 (-50, 30) 500 120 "w" "cat").y ∧
    (commitBox frame100 (-50, 30) 500 120 "w" "cat").x +
      (commitBox frame100 (-50, 30) 500 120 "w" "cat").width ≤ 1 ∧
    (commitBox frame100 (-50, 30) 500 120 "w" "cat").y +
      (commitBox frame100 (-50, 30) 500 120 "w" "cat").height ≤ 1 :=
  C1_draw_commit_bounds frame100 (-50, 30) 500 120 "w" "cat"
    (by norm_num [frame100]) (by norm_num [frame100])

/-- Editor state mid-draw in `frame100`, gesture started at pixel (50, 50),
no pre-existing boxes. -/
def zeroDrawState : EditorState :=
  { mode := Mode.drawing
    startPoint := Option.some (50, 50)
    dragOffset := Option.none
    resizingCorner := Option.none
    selectedId := Option.none
    activeLabel := "cat"
    annotations := []
    frame := Option.some frame100 }

/-- Helper: in Drawing mode with a recorded start point and a stored frame,
`handleMouseUp` appends the committed box and resets the transient state. -/
lemma handleMouseUp_drawing (s : EditorState) (sp : ℚ × ℚ) (f : ImageFrame)
    (px py : ℚ) (nid : String)
    (hm : s.mode = Mode.drawing) (hsp : s.startPoint = Option.some sp)
    (hf : s.frame = Option.some f) :
    handleMouseUp s px py nid =
      Except.ok (resetUp
        { s with annotations :=
            s.annotations ++ [commitBox f sp px py nid s.activeLabel] }) := by
  unfold handleMouseUp
  rw [hm, hsp, hf]

/-- C3 counterexample: a draw gesture whose start and end coincide (well
below any size threshold in both axes) still commits a box — the box list
grows from length 0 to length 1 and the committed box is fully degenerate,
width = height = 0. `handleMouseUp` has no minimum-size check. -/
theorem C3_counterexample :
    handleMouseUp zeroDrawState 50 50 "z" =
      Except.ok
        { zeroDrawState with
          mode := Mode.none
          startPoint := Option.none
          annotations := [⟨"z", 1/2, 1/2, 0, 0, "cat"⟩] } ∧
    (⟨"z", 1/2, 1/2, 0, 0, "cat"⟩ : BoundingBox).width = 0 ∧
    ¬ ([(⟨"z", 1/2, 1/2, 0, 0, "cat"⟩ : BoundingBox)].length =
        ([] : List BoundingBox).length) := by
  refine ⟨?_, rfl, by simp⟩
  simp [handleMouseUp, zeroDrawState, commitBox, resetUp, frame100]
  norm_num

/-- C3 amended: pointer-up in Drawing mode (with a recorded start point and
a stored frame) always commits exactly one new box, regardless of gesture
size — no degenerate-size discard exists, so the box list always grows by
one. -/
theorem C3_always_commits (s : EditorState) (sp : ℚ × ℚ) (f : ImageFrame)
    (px py : ℚ) (nid : String)
    (hm : s.mode = Mode.drawing) (hsp : s.startPoint = Option.some sp)
    (hf : s.frame = Option.some f) :
    ∃ s', handleMouseUp s px py nid = Except.ok s' ∧
      s'.annotations = s.annotations ++ [commitBox f sp px py nid s.activeLabel] ∧
      s'.annotations.length = s.annotations.length + 1 := by
  refine ⟨_, handleMouseUp_drawing s sp f px py nid hm hsp hf, rfl, ?_⟩
  simp [resetUp]

/-- C3 amended, witness: the zero-size gesture at (50, 50) commits a box
and grows the list by one. -/
theorem C3_always_commits_witness :
    ∃ s', handleMouseUp zeroDrawState 50 50 "z" = Except.ok s' ∧
      s'.annotations = zeroDrawState.annotations ++
        [commitBox frame100 (50, 50) 50 50 "z" zeroDrawState.activeLabel] ∧
      s'.annotations.length = zeroDrawState.annotations.length + 1 :=
  C3_always_commits zeroDrawState (50, 50) frame100 50 50 "z" rfl rfl rfl

/-- Pristine editor state: the image never loaded, so `drawCanvas` returned
early and `imageDrawData.current` is still `null`. -/
def unloadedState : EditorState :=
  { mode := Mode.none
    startPoint := Option.none
    dragOffset := Option.none
    resizingCorner := Option.none
    selectedId := Option.none
    activeLabel := "cat"
    annotations := []
    frame := Option.none }

/-- C4: with no `ImageFrame` stored, pointer-down is guarded (both hit
tests return `null`) and falls through to Drawing mode without touching the
box list, pointer-move in that state is a no-op, but pointer-up then
destructures the `null` `imageDrawData.current` and throws a `TypeError` —
the down-then-up sequence before the first render faults instead of being a
no-op. -/
theorem C4_mouseup_faults_without_frame :
    (handleMouseDown unloadedState 10 10).mode = Mode.drawing ∧
    (handleMouseDown unloadedState 10 10).annotations = [] ∧
    handleMouseMove (handleMouseDown unloadedState 10 10) 12 12 =
      Except.ok (handleMouseDown unloadedState 10 10) ∧
    handleMouseUp (handleMouseDown unloadedState 10 10) 10 10 "n" =
      Except.error nullFrameErr :=
  ⟨rfl, rfl, rfl, rfl⟩

/-- Extracts the data of an outline command, used to read the stroke
sequence off a command list. -/
def strokeData : DrawCmd → Option (ℚ × ℚ × ℚ × ℚ × Bool)
  | DrawCmd.strokeRect x y w h sel => Option.some (x, y, w, h, sel)
  | _ => Option.none

/-- The outline data `drawCanvas` paints for one box: pixel rectangle plus
whether the distinct selected stroke is used. -/
def boxStroke (f : ImageFrame) (selectedId : Option String) (b : BoundingBox) :
    ℚ × ℚ × ℚ × ℚ × Bool :=
  (f.x + b.x * f.width, f.y + b.y * f.height, b.width * f.width,
   b.height * f.height, Option.some b.id == selectedId)

/-- Helper: the stroke commands of a render are exactly the boxes' outlines
in insertion order. -/
lemma filterMap_stroke (f : ImageFrame) (sel : Option String) :
    ∀ boxes : List BoundingBox,
      ((boxes.map (boxCmds f sel)).flatten).filterMap strokeData
        = boxes.map (boxStroke f sel)
  | [] => rfl
  | b :: bs => by
    simp only [List.map_cons, List.flatten_cons, List.filterMap_append,
      filterMap_stroke f sel bs]
    simp [boxCmds, boxHandles, drawHandle, strokeData, boxStroke]

/-- C6 counterexample: rendering a single unselected box (no box is
selected at all) still paints its four corner handles — `drawCanvas` draws
handles for every box, not only for the selected one. Canvas 800×600,
image 400×200, `boxA` covering the image, selection empty. -/
theorem C6_counterexample :
    drawCanvas (Option.some (400, 200)) 800 600 [boxA] Option.none =
      [DrawCmd.clear,
       DrawCmd.image 0 100 800 400,
       DrawCmd.strokeRect 0 100 800 400 false,
       DrawCmd.labelChip "cat" 0 80,
       DrawCmd.handle 0 100 HANDLE_SIZE,
       DrawCmd.handle 800 100 HANDLE_SIZE,
       DrawCmd.handle 0 500 HANDLE_SIZE,
       DrawCmd.handle 800 500 HANDLE_SIZE] ∧
    (Option.none : Option String) ≠ Option.some boxA.id := by
  constructor
  · norm_num [drawCanvas, renderCmds, computeFrame, boxCmds, boxHandles,
      drawHandle, boxA, min_def]
  · simp

/-- C6 amended: a render clears the canvas first and paints the background
image second, then the boxes' outlines in insertion order; the four corner
handles are painted for every box, selected or not — selection only decides
which stroke style an outline uses. -/
theorem C6_render_order (f : ImageFrame) (boxes : List BoundingBox)
    (sel : Option String) :
    (∀ imgW imgH w h : ℚ,
      drawCanvas (Option.some (imgW, imgH)) w h boxes sel
        = renderCmds (computeFrame w h imgW imgH) boxes sel) ∧
    (∃ rest, renderCmds f boxes sel =
      DrawCmd.clear :: DrawCmd.image f.x f.y f.width f.height :: rest) ∧
    (renderCmds f boxes sel).filterMap strokeData = boxes.map (boxStroke f sel) ∧
    ∀ b ∈ boxes, ∀ c ∈ boxHandles f b, c ∈ renderCmds f boxes sel := by
  refine ⟨fun imgW imgH w h => rfl, ⟨_, rfl⟩, ?_, ?_⟩
  · simpa [renderCmds, strokeData] using filterMap_stroke f sel boxes
  · intro b hb c hc
    have h1 : c ∈ boxCmds f sel b := by
      have := List.mem_append_right
        [DrawCmd.strokeRect (f.x + b.x * f.width) (f.y + b.y * f.height)
           (b.width * f.width) (b.height * f.height) (Option.some b.id == sel),
         DrawCmd.labelChip b.label (f.x + b.x * f.width) (f.y + b.y * f.height - 20)]
        hc
      simpa [boxCmds] using this
    have h2 : c ∈ (boxes.map (boxCmds f sel)).flatten :=
      List.mem_flatten.mpr ⟨boxCmds f sel b, List.mem_map_of_mem _ hb, h1⟩
    exact List.mem_cons_of_mem _ (List.mem_cons_of_mem _ h2)

/-- C6 amended, witness: in the 800×600 render of `boxA` with empty
selection, the top-left handle of `boxA` is among the painted commands. -/
theorem C6_render_order_witness :
    DrawCmd.handle 0 100 HANDLE_SIZE ∈
      renderCmds (computeFrame 800 600 400 200) [boxA] Option.none :=
  (C6_render_order (computeFrame 800 600 400 200) [boxA] Option.none).2.2.2
    boxA (by simp)
    (DrawCmd.handle 0 100 HANDLE_SIZE)
    (by simp only [boxHandles, drawHandle, computeFrame, boxA]
        norm_num [min_def])

/-- Helper: a corner index returned by the per-box handle search is one of
the four corners and is a genuine hit. -/
lemma findHandleInBox_sound (f : ImageFrame) (b : BoundingBox) (px py : ℚ)
    (i : Nat) (h : findHandleInBox f b px py = Option.some i) :
    i < 4 ∧ hitsHandle px py (cornerPoint f b i) = true := by
  unfold findHandleInBox at h
  split_ifs at h with h0 h1 h2 h3
  · injection h with h
    subst h
    exact ⟨by norm_num, h0⟩
  · injection h with h
    subst h
    exact ⟨by norm_num, h1⟩
  · injection h with h
    subst h
    exact ⟨by norm_num, h2⟩
  · injection h with h
    subst h
    exact ⟨by norm_num, h3⟩

/-- Helper: the outer handle-search loop returns the head of the suffix
when no earlier box has a hit corner. -/
lemma findHandleAux_append (f : ImageFrame) (px py : ℚ) (xs : List BoundingBox)
    (b : BoundingBox) (ys : List BoundingBox) (i : Nat)
    (hxs : ∀ a ∈ xs, findHandleInBox f a px py = Option.none)
    (hb : findHandleInBox f b px py = Option.some i) :
    findHandleAux f px py (xs ++ b :: ys) = Option.some (b, i) := by
  induction xs with
  | nil => simp [findHandleAux, hb]
  | cons a t ih =>
    have ha := hxs a (List.mem_cons_self a t)
    simp only [List.cons_append, findHandleAux, ha]
    exact ih fun c hc => hxs c (List.mem_cons_of_mem a hc)

/-- C7: the handle hit radius is 1.5× the rendered handle radius
`HANDLE_SIZE`, and `handleMouseDown` consults `findClickedHandle` — which
scans all four corners of every box — before any body test: when the
pointer is within handle radius of a corner of box `b` (and no
earlier-inserted box has a hit corner), pointer-down enters Resizing on `b`
with that corner remembered, regardless of which boxes' bodies contain the
pointer. -/
theorem C7_handle_precedence (s : EditorState) (f : ImageFrame)
    (xs ys : List BoundingBox) (b : BoundingBox) (i : Nat) (px py : ℚ)
    (hf : s.frame = Option.some f)
    (hann : s.annotations = xs ++ b :: ys)
    (hxs : ∀ a ∈ xs, findHandleInBox f a px py = Option.none)
    (hb : findHandleInBox f b px py = Option.some i) :
    handleHitRadius = HANDLE_SIZE * (3 / 2) ∧
    i < 4 ∧ hitsHandle px py (cornerPoint f b i) = true ∧
    findClickedHandle s.frame s.annotations px py = Option.some (b, i) ∧
    (handleMouseDown s px py).mode = Mode.resizing ∧
    (handleMouseDown s px py).selectedId = Option.some b.id ∧
    (handleMouseDown s px py).resizingCorner = Option.some i := by
  obtain ⟨h4, h5⟩ := findHandleInBox_sound f b px py i hb
  have hch : findClickedHandle s.frame s.annotations px py = Option.some (b, i) := by
    rw [hf, hann]
    simpa [findClickedHandle] using findHandleAux_append f px py xs b ys i hxs hb
  refine ⟨rfl, h4, h5, hch, ?_, ?_, ?_⟩ <;> simp [handleMouseDown, hch]

/-- C7 witness: in `overlapState`, pixel (25, 25) is within handle radius
of `boxB`'s top-left corner while also lying inside `boxA`'s body
(`boxA` drawn underneath covers the whole image); pointer-down enters
Resizing on `boxB` via its handle, not Moving on a body. -/
theorem C7_handle_precedence_witness :
    (handleHitRadius = HANDLE_SIZE * (3 / 2) ∧
      0 < 4 ∧ hitsHandle 25 25 (cornerPoint frame100 boxB 0) = true ∧
      findClickedHandle overlapState.frame overlapState.annotations 25 25 =
        Option.some (boxB, 0) ∧
      (handleMouseDown overlapState 25 25).mode = Mode.resizing ∧
      (handleMouseDown overlapState 25 25).selectedId = Option.some boxB.id ∧
      (handleMouseDown overlapState 25 25).resizingCorner = Option.some 0) ∧
    containsPoint frame100 boxA 25 25 = true :=
  ⟨C7_handle_precedence overlapState frame100 [boxA] [] boxB 0 25 25 rfl rfl
    (by intro a ha
        simp only [List.mem_singleton] at ha
        subst ha
        simp only [findHandleInBox, hitsHandle, cornerPoint, handleHitRadius,
          HANDLE_SIZE, frame100, boxA]
        norm_num)
    (by simp only [findHandleInBox, hitsHandle, cornerPoint, handleHitRadius,
          HANDLE_SIZE, frame100, boxB]
        norm_num),
   by simp only [containsPoint, frame100, boxA]
      norm_num⟩

/-- The 0.2/0.2/0.2/0.2 box of the resize-flip scenario. -/
def boxFlip : BoundingBox := ⟨"A", 1/5, 1/5, 1/5, 1/5, "cat"⟩

/-- C8: a resize pointer-move rebuilds the selected box's rectangle from
the dragged corner and its opposite with `min`/`abs` normalization, so the
updated box always has nonnegative width and height, whatever corner is
dragged wherever. -/
theorem C8_resize_nonneg (f : ImageFrame) (sid : String) (corner : Nat)
    (px py : ℚ) (box : BoundingBox)
    (hw : 0 < f.width) (hh : 0 < f.height) (hid : box.id = sid) :
    0 ≤ (resizeBox f sid corner px py box).width ∧
    0 ≤ (resizeBox f sid corner px py box).height := by
  have hcond : ¬ box.id ≠ sid := by simp [hid]
  simp only [resizeBox, if_neg hcond]
  exact ⟨div_nonneg (abs_nonneg _) hw.le, div_nonneg (abs_nonneg _) hh.le⟩

/-- C8 witness: dragging the bottom-right handle (corner 3) of `boxFlip`
(x=y=w=h=1/5 in `frame100`, pixel rect (20,20)-(40,40)) to (10, 10) — left
of and above its top-left corner — yields the valid swapped-corner box
x=y=w=h=1/10, with nonnegative width and height. -/
theorem C8_resize_nonneg_witness :
    (0 ≤ (resizeBox frame100 "A" 3 10 10 boxFlip).width ∧
     0 ≤ (resizeBox frame100 "A" 3 10 10 boxFlip).height) ∧
    resizeBox frame100 "A" 3 10 10 boxFlip =
      ⟨"A", 1/10, 1/10, 1/10, 1/10, "cat"⟩ ∧
    cornerPoint frame100 boxFlip 0 = (20, 20) :=
  ⟨C8_resize_nonneg frame100 "A" 3 10 10 boxFlip
      (by norm_num [frame100]) (by norm_num [frame100]) rfl,
   by norm_num [resizeBox, frame100, boxFlip, min_def, abs_of_nonpos,
        abs_of_nonneg],
   by norm_num [cornerPoint, frame100, boxFlip]⟩

/-- C9: for a frame with positive drawn extents, the normalized-to-pixel
conversion and the pixel-to-normalized conversion are mutual inverses —
exactly, in exact rational arithmetic, hence a fortiori within the spec's
1e-6 floating-point tolerance. -/
theorem C9_roundtrip (f : ImageFrame) (b : BoundingBox) (r : ℚ × ℚ × ℚ × ℚ)
    (id label : String) (hw : 0 < f.width) (hh : 0 < f.height) :
    toNormalized f (toCanvas f b) b.id b.label = b ∧
    toCanvas f (toNormalized f r id label) = r := by
  constructor
  · cases b with
    | mk i x y w h l =>
      simp only [toCanvas, toNormalized, BoundingBox.mk.injEq]
      refine ⟨trivial, ?_, ?_, ?_, ?_, trivial⟩ <;> field_simp
  · obtain ⟨rx, ry, rw2, rh2⟩ := r
    simp only [toCanvas, toNormalized, Prod.mk.injEq]
    refine ⟨?_, ?_, ?_, ?_⟩ <;> field_simp

/-- C9 witness: the round trips evaluated in `frame100` on `boxB` and on
the pixel rectangle (10, 20, 30, 40). -/
theorem C9_roundtrip_witness :
    toNormalized frame100 (toCanvas frame100 boxB) boxB.id boxB.label = boxB ∧
    toCanvas frame100 (toNormalized frame100 (10, 20, 30, 40) "i" "l") =
      (10, 20, 30, 40) :=
  C9_roundtrip frame100 boxB (10, 20, 30, 40) "i" "l"
    (by norm_num [frame100]) (by norm_num [frame100])

/-- C10: a Moving-mode pointer-move maps the box list pointwise, keeping
its length and order; every box whose id differs from the selected id is
returned as the very same element, and any box with the selected id changes
only its x and y — id, width, height and label are untouched. -/
theorem C10_move_frame_effect (s : EditorState) (sid : String) (d : ℚ × ℚ)
    (f : ImageFrame) (px py : ℚ)
    (hm : s.mode = Mode.moving) (hsel : s.selectedId = Option.some sid)
    (hne : sid ≠ "") (hd : s.dragOffset = Option.some d)
    (hf : s.frame = Option.some f) :
    ∃ s', handleMouseMove s px py = Except.ok s' ∧
      s'.annotations = s.annotations.map (moveBox f sid (px - d.1) (py - d.2)) ∧
      s'.annotations.length = s.annotations.length ∧
      (∀ box : BoundingBox, box.id ≠ sid →
        moveBox f sid (px - d.1) (py - d.2) box = box) ∧
      (∀ box : BoundingBox,
        (moveBox f sid (px - d.1) (py - d.2) box).id = box.id ∧
        (moveBox f sid (px - d.1) (py - d.2) box).width = box.width ∧
        (moveBox f sid (px - d.1) (py - d.2) box).height = box.height ∧
        (moveBox f sid (px - d.1) (py - d.2) box).label = box.label) := by
  have key : handleMouseMove s px py =
      Except.ok
        { s with
          annotations := s.annotations.map (moveBox f sid (px - d.1) (py - d.2))
          dragOffset := Option.some (px, py) } := by
    unfold handleMouseMove
    rw [hm, hsel, hd, hf]
    simp [hne]
  refine ⟨_, key, rfl, by simp, ?_, ?_⟩
  · intro box hbox
    simp [moveBox, hbox]
  · intro box
    by_cases hbox : box.id = sid
    · simp [moveBox, hbox]
    · simp [moveBox, hbox]

/-- C10 witness: the move of `movingState` (drag anchor (0,0), pointer at
(7, 9)) satisfies all the frame conditions of the move effect. -/
theorem C10_move_frame_effect_witness :
    ∃ s', handleMouseMove movingState 7 9 = Except.ok s' ∧
      s'.annotations =
        movingState.annotations.map (moveBox frame100 "A" (7 - 0) (9 - 0)) ∧
      s'.annotations.length = movingState.annotations.length ∧
      (∀ box : BoundingBox, box.id ≠ "A" →
        moveBox frame100 "A" (7 - 0) (9 - 0) box = box) ∧
      (∀ box : BoundingBox,
        (moveBox frame100 "A" (7 - 0) (9 - 0) box).id = box.id ∧
        (moveBox frame100 "A" (7 - 0) (9 - 0) box).width = box.width ∧
        (moveBox frame100 "A" (7 - 0) (9 - 0) box).height = box.height ∧
        (moveBox frame100 "A" (7 - 0) (9 - 0) box).label = box.label) :=
  C10_move_frame_effect movingState "A" (0, 0) frame100 7 9 rfl rfl
    (by simp) rfl rfl

end OpenLabel
